import Mathlib

/-!
Shallow embedding of the corporate hotel-booking backend (Express + MySQL).
Each route handler is translated into a pure Lean function over explicit
table state (lists of rows); SQL statements become list filters / maps and
JavaScript truthiness is modelled explicitly where the source relies on it.
-/

/-- The identityType claim carried in the JWT (`'Hotel' | 'Corporate'`). -/
inductive IdentityType
  | Hotel
  | Corporate
deriving DecidableEq

/-- The `BookingStatus` enum of the `bookings` table. -/
inductive BookingStatus
  | pending
  | confirmed
  | rejected
  | cancelled
  | completed
  | no_show
deriving DecidableEq

/-- The decoded bearer token payload (`req.user`). -/
structure AuthUser where
  id : Nat
  email : String
  role : String
  identityType : Option IdentityType
deriving DecidableEq

/-- A row of `HotelDetails` (the fields the modelled routes touch). -/
structure HotelProfile where
  id : Nat
  userId : Nat
deriving DecidableEq

/-- A row of `CorporateDetails` (the fields the modelled routes touch). -/
structure CorporateProfile where
  id : Nat
  userId : Nat
deriving DecidableEq

/-- A row of `room_types`. Prices are modelled as integers; `CorporatePrice`
is nullable (`Option`). -/
structure RoomType where
  id : Nat
  hotelId : Nat
  name : String
  capacity : Int
  basePrice : Int
  corporatePrice : Option Int
  isActive : Bool
deriving DecidableEq

/-- A row of `bookings` (the fields the modelled routes read or write). -/
structure Booking where
  id : Nat
  bookingNumber : String
  userId : Nat
  corporateDetailsId : Option Nat
  hotelId : Nat
  roomTypeId : Nat
  checkInDate : Int
  checkOutDate : Int
  guestName : String
  guestEmail : String
  guestPhone : Option String
  guestCount : Nat
  roomQuantity : Nat
  specialRequests : Option String
  totalPrice : Int
  status : BookingStatus
  approvedAt : Option Int
  rejectionReason : Option String
  createdAt : Nat
deriving DecidableEq

/-- JavaScript truthiness of an optional number (absent and `0` are falsy). -/
def natFalsy : Option Nat → Bool
  | none => true
  | some n => n == 0

/-- JavaScript truthiness of an optional string (absent and `''` are falsy). -/
def strFalsy : Option String → Bool
  | none => true
  | some s => s == ""

/-- The nightly rate `CorporatePrice || BasePrice` as the route observes
it: the pool in `connection.ts` sets no `decimalNumbers` option, so mysql2
returns DECIMAL columns as strings, and a non-NULL CorporatePrice arrives
as a nonempty string such as "0.00" or "120.00" — truthy even when it
encodes zero. The `||` therefore falls back to BasePrice exactly when
CorporatePrice is NULL, and the later arithmetic coerces the string back
to its numeric value, which this model carries directly. -/
def corporateNightlyRate (corporatePrice : Option Int) (basePrice : Int) : Int :=
  corporatePrice.getD basePrice

/-- `a || b` where `a` is an optional natural (`roomCount || 1` and
`guestCount || 1` in the booking route). -/
def jsOrNat (a : Option Nat) (b : Nat) : Nat :=
  match a with
  | none => b
  | some v => if v == 0 then b else v

/-- `s || null` for a nullable string (`guestPhone || null`): the empty
string collapses to null. -/
def jsStrOrNull (a : Option String) : Option String :=
  match a with
  | none => none
  | some s => if s == "" then none else some s

/-- `s || ''` for a nullable string (`description || ''`). -/
def jsStrOrEmpty (a : Option String) : String :=
  match a with
  | none => ""
  | some s => s

/-- `x ? parseFloat(x) : null` for a nullable number field: `0` is falsy and
becomes null. -/
def jsNumOrNull (a : Option Int) : Option Int :=
  match a with
  | none => none
  | some v => if v == 0 then none else some v

/-- Ceiling division of integers for positive divisor, mirroring
`Math.ceil(a / b)`. -/
def ceilDiv (a b : Int) : Int := -((-a).fdiv b)

/-- `utils/helpers.ts` `calculateTotalPrice`: price per night times nights. -/
def calculateTotalPrice (pricePerNight : Int) (nights : Int) : Int :=
  pricePerNight * nights

/-- Last six characters of a string (`.slice(-6)`). -/
def lastSix (s : String) : String :=
  String.mk (s.data.drop (s.data.length - 6))

/-- `.toString().padStart(4, '0')` for the four-digit random suffix. -/
def padStart4 (s : String) : String :=
  String.mk (List.replicate (4 - s.data.length) '0') ++ s

/-- `utils/helpers.ts` `generateBookingNumber`: `BK` plus the last six digits
of `Date.now()` plus a four-digit random suffix; the time and the random draw
are passed explicitly. -/
def generateBookingNumber (nowMs : Nat) (rand : Nat) : String :=
  "BK" ++ lastSix (toString nowMs) ++ padStart4 (toString (rand % 10000))

/-- `utils/helpers.ts` `getHotelDetailsId`: first `HotelDetails` row for the
user, if any. -/
def getHotelDetailsId (hotels : List HotelProfile) (userId : Nat) : Option Nat :=
  ((hotels.filter fun h => h.userId == userId).head?).map (fun h => h.id)

/-- `utils/helpers.ts` `getCorporateDetailsId`. -/
def getCorporateDetailsId (corps : List CorporateProfile) (userId : Nat) : Option Nat :=
  ((corps.filter fun c => c.userId == userId).head?).map (fun c => c.id)

/-- Request body of `POST /bookings`; `none` models an absent field (for the
date fields, also an empty date string). Dates are epoch milliseconds. -/
structure BookingRequestBody where
  hotelDetailsId : Option Nat
  roomTypeId : Option Nat
  checkInDate : Option Int
  checkOutDate : Option Int
  guestName : Option String
  guestEmail : Option String
  guestPhone : Option String
  guestCount : Option Nat
  roomCount : Option Nat
  specialRequests : Option String
deriving DecidableEq

/-- Outcome of `POST /bookings`. -/
inductive CreateBookingRes
  | forbidden (e : String)
  | badRequest (e : String)
  | notFound (e : String)
  | serverError (e : String)
  | created (bookingNumber : String) (totalPrice : Int) (nights : Int) (row : Booking)
deriving DecidableEq

def onlyCorporateMsg : String := "Only corporate users can make bookings"
def missingFieldsMsg : String := "Missing required fields"
def roomTypeNotFoundMsg : String := "Room type not found or not available"
def failedCreateBookingMsg : String := "Failed to create booking"

/-- `POST /bookings` (`src/routes/bookings.ts`). `roomTypesDb` is the
`room_types` table, `existingNumbers` the booking numbers already stored
(the UNIQUE constraint on `BookingNumber`), `nowMs`/`rand` the sources of
time and randomness. A generated number that collides with an existing one
makes the INSERT throw, which the handler catches as a 500. -/
def createBooking (roomTypesDb : List RoomType) (corps : List CorporateProfile)
    (existingNumbers : List String) (user : AuthUser)
    (nowMs : Nat) (rand : Nat) (nextId : Nat)
    (body : BookingRequestBody) : CreateBookingRes :=
  if user.identityType ≠ some IdentityType.Corporate then
    CreateBookingRes.forbidden onlyCorporateMsg
  else if natFalsy body.hotelDetailsId || natFalsy body.roomTypeId
      || body.checkInDate.isNone || body.checkOutDate.isNone
      || strFalsy body.guestName || strFalsy body.guestEmail then
    CreateBookingRes.badRequest missingFieldsMsg
  else
    let hotelDetailsId := body.hotelDetailsId.getD 0
    let roomTypeId := body.roomTypeId.getD 0
    match (roomTypesDb.filter fun rt =>
        rt.id == roomTypeId && rt.hotelId == hotelDetailsId && rt.isActive).head? with
    | none => CreateBookingRes.notFound roomTypeNotFoundMsg
    | some rt =>
      let corporateId := getCorporateDetailsId corps user.id
      let pricePerNight := corporateNightlyRate rt.corporatePrice rt.basePrice
      let checkIn := body.checkInDate.getD 0
      let checkOut := body.checkOutDate.getD 0
      let nights := ceilDiv (checkOut - checkIn) 86400000
      let numberOfRooms := jsOrNat body.roomCount 1
      let totalPrice := calculateTotalPrice pricePerNight nights * numberOfRooms
      let bookingNumber := generateBookingNumber nowMs rand
      if bookingNumber ∈ existingNumbers then
        CreateBookingRes.serverError failedCreateBookingMsg
      else
        CreateBookingRes.created bookingNumber totalPrice nights
          { id := nextId
            bookingNumber := bookingNumber
            userId := user.id
            corporateDetailsId := corporateId
            hotelId := hotelDetailsId
            roomTypeId := roomTypeId
            checkInDate := checkIn
            checkOutDate := checkOut
            guestName := body.guestName.getD ""
            guestEmail := body.guestEmail.getD ""
            guestPhone := jsStrOrNull body.guestPhone
            guestCount := jsOrNat body.guestCount 1
            roomQuantity := numberOfRooms
            specialRequests := jsStrOrNull body.specialRequests
            totalPrice := totalPrice
            status := BookingStatus.pending
            approvedAt := none
            rejectionReason := none
            createdAt := nowMs }

/-- The stored total of a successful creation, if any. -/
def createdTotalPrice : CreateBookingRes → Option Int
  | CreateBookingRes.created _ total _ _ => some total
  | _ => none

/-- The stored row of a successful creation, if any. -/
def createdRow : CreateBookingRes → Option Booking
  | CreateBookingRes.created _ _ _ b => some b
  | _ => none

/-- The spec's own pricing formula, written with nullish-coalescing
(`corporatePrice ?? basePrice`): the fallback applies only when
`corporatePrice` is absent, never when it is present but zero. Kept separate
from the source translation for comparison. -/
def specNullishTotal (basePrice : Int) (corporatePrice : Option Int)
    (nights : Int) (roomCount : Nat) : Int :=
  (corporatePrice.getD basePrice) * nights * roomCount

/-- Response shape shared by the status-transition and catalog routes. -/
inductive ApiRes
  | ok (msg : String)
  | badRequest (e : String)
  | notFound (e : String)
  | forbidden (e : String)
  | serverError (e : String)
deriving DecidableEq

def accessDeniedHotelMsg : String := "Access denied. Hotel users only."
def bookingNotFoundMsg : String := "Booking not found"
def onlyPendingApproveMsg : String := "Only pending bookings can be approved"
def onlyPendingRejectMsg : String := "Only pending bookings can be rejected"
def cannotCancelMsg : String := "This booking cannot be cancelled"
def approvedMsg : String := "Booking approved successfully"
def rejectedMsg : String := "Booking rejected"
def cancelledMsg : String := "Booking cancelled successfully"

/-- `PUT /bookings/:id/approve`: Hotel-only; the booking must belong to the
caller's hotel and be `pending`; on success the UPDATE (keyed by id only)
sets `confirmed` and stamps `ApprovedAt`. -/
def approveBooking (hotels : List HotelProfile) (db : List Booking)
    (user : AuthUser) (bid : Nat) (now : Int) : ApiRes × List Booking :=
  if user.identityType ≠ some IdentityType.Hotel then
    (ApiRes.forbidden accessDeniedHotelMsg, db)
  else
    let hotelId := getHotelDetailsId hotels user.id
    match (db.filter fun b => b.id == bid && some b.hotelId == hotelId).head? with
    | none => (ApiRes.notFound bookingNotFoundMsg, db)
    | some b =>
      if b.status ≠ BookingStatus.pending then
        (ApiRes.badRequest onlyPendingApproveMsg, db)
      else
        (ApiRes.ok approvedMsg,
         db.map fun x =>
           if x.id == bid then
             { x with status := BookingStatus.confirmed, approvedAt := some now }
           else x)

/-- `PUT /bookings/:id/reject`: same gate as approve; on success sets
`rejected` and stores `reason || null`. -/
def rejectBooking (hotels : List HotelProfile) (db : List Booking)
    (user : AuthUser) (bid : Nat) (reason : Option String) : ApiRes × List Booking :=
  if user.identityType ≠ some IdentityType.Hotel then
    (ApiRes.forbidden accessDeniedHotelMsg, db)
  else
    let hotelId := getHotelDetailsId hotels user.id
    match (db.filter fun b => b.id == bid && some b.hotelId == hotelId).head? with
    | none => (ApiRes.notFound bookingNotFoundMsg, db)
    | some b =>
      if b.status ≠ BookingStatus.pending then
        (ApiRes.badRequest onlyPendingRejectMsg, db)
      else
        (ApiRes.ok rejectedMsg,
         db.map fun x =>
           if x.id == bid then
             { x with status := BookingStatus.rejected, rejectionReason := jsStrOrNull reason }
           else x)

/-- `PUT /bookings/:id/cancel`: the caller must be the creating user and the
booking `pending` or `confirmed`; on success sets `cancelled`. -/
def cancelBooking (db : List Booking) (user : AuthUser) (bid : Nat) : ApiRes × List Booking :=
  match (db.filter fun b => b.id == bid && b.userId == user.id).head? with
  | none => (ApiRes.notFound bookingNotFoundMsg, db)
  | some b =>
    if ¬(b.status = BookingStatus.pending ∨ b.status = BookingStatus.confirmed) then
      (ApiRes.badRequest cannotCancelMsg, db)
    else
      (ApiRes.ok cancelledMsg,
       db.map fun x =>
         if x.id == bid then { x with status := BookingStatus.cancelled } else x)

/-- One workflow call against the bookings table, with its caller context. -/
inductive BookingOp
  | approve (hotels : List HotelProfile) (user : AuthUser) (bid : Nat) (now : Int)
  | reject (hotels : List HotelProfile) (user : AuthUser) (bid : Nat) (reason : Option String)
  | cancel (user : AuthUser) (bid : Nat)

/-- The bookings table after one workflow call. -/
def applyOp (db : List Booking) : BookingOp → List Booking
  | BookingOp.approve hotels user bid now => (approveBooking hotels db user bid now).2
  | BookingOp.reject hotels user bid reason => (rejectBooking hotels db user bid reason).2
  | BookingOp.cancel user bid => (cancelBooking db user bid).2

/-- The bookings table after a sequence of workflow calls. -/
def applyOps (db : List Booking) (ops : List BookingOp) : List Booking :=
  ops.foldl applyOp db

/-- The statuses the spec declares terminal for the modelled routes. -/
def isTerminalStatus : BookingStatus → Bool
  | BookingStatus.rejected => true
  | BookingStatus.cancelled => true
  | BookingStatus.completed => true
  | _ => false

/-- A `users` table row (the columns the login route reads). -/
structure UserRow where
  id : Nat
  email : String
  password : String
  role : String
  corporateClientId : Option Nat
  identityType : Option IdentityType
  isProfileCompleted : Bool
  isActive : Bool
deriving DecidableEq

/-- Outcome of `POST /auth/login`: either an HTTP status with an error body,
or a token payload plus user summary. -/
inductive LoginRes
  | err (status : Nat) (body : String)
  | success (tokenUserId : Nat) (tokenEmail : String) (tokenRole : String)
      (tokenIdentityType : Option IdentityType)
deriving DecidableEq

def invalidCredentialsMsg : String := "Invalid credentials"

/-- `POST /auth/login` (from the SELECT onward; express-validator input
validation is upstream). The query filters `isActive = TRUE`, so an unknown
email and an inactive account take the same branch; `bcryptCompare` is the
password-check oracle. -/
def login (users : List UserRow) (bcryptCompare : String → String → Bool)
    (email password : String) : LoginRes :=
  match (users.filter fun u => u.email == email && u.isActive).head? with
  | none => LoginRes.err 401 invalidCredentialsMsg
  | some u =>
    if bcryptCompare password u.password then
      LoginRes.success u.id u.email u.role u.identityType
    else
      LoginRes.err 401 invalidCredentialsMsg

/-- A row of `HotelPosts`. `Title` is stored as written by the handlers,
which pass the payload value through unchecked, so it is nullable here. -/
structure HotelPost where
  id : Nat
  hotelId : Nat
  title : Option String
  description : String
  price : Option Int
  minPrice : Option Int
  maxPrice : Option Int
  availableDate : Option Int
  startDate : Option Int
  endDate : Option Int
deriving DecidableEq

/-- Request body of `PUT /posts/:id` (and `POST /posts`); `none` is an
absent field. Dates are epoch days; `none` also models an empty date
string (`availableDate || null`). -/
structure PostBody where
  title : Option String
  description : Option String
  price : Option Int
  availableDate : Option Int
  minPrice : Option Int
  maxPrice : Option Int
  startDate : Option Int
  endDate : Option Int
deriving DecidableEq

def hotelProfileNotFoundMsg : String := "Hotel profile not found"
def postNotFoundMsg : String := "Post not found or unauthorized"
def postUpdatedMsg : String := "Post updated successfully"
def failedUpdatePostMsg : String := "Failed to update post"
/-- The UPDATE of `PUT /posts/:id`, for a payload whose title is present
(so every bind parameter is defined): every column is overwritten from the
payload (`Title` as given, `Description` via `|| ''`, the numeric columns
via the ternary that maps falsy input to null, the date columns via
`|| null`). -/
def applyPostBody (p : HotelPost) (body : PostBody) : HotelPost :=
  { p with
    title := body.title
    description := jsStrOrEmpty body.description
    price := jsNumOrNull body.price
    minPrice := jsNumOrNull body.minPrice
    maxPrice := jsNumOrNull body.maxPrice
    availableDate := body.availableDate
    startDate := body.startDate
    endDate := body.endDate }

/-- `PUT /posts/:id` (`src/routes/posts.ts`): resolve the caller's hotel,
verify the post belongs to it, then run the whole-row UPDATE keyed by id.
The route passes `title` to the UPDATE as a raw bind parameter (every
other column is coalesced in JavaScript first), and mysql2 `execute`
rejects an undefined bind parameter, so a payload without a title reaches
the catch block after the ownership check: 500, row unchanged. -/
def updatePost (hotels : List HotelProfile) (posts : List HotelPost)
    (callerUserId : Nat) (postId : Nat) (body : PostBody) : ApiRes × List HotelPost :=
  match getHotelDetailsId hotels callerUserId with
  | none => (ApiRes.notFound hotelProfileNotFoundMsg, posts)
  | some hotelId =>
    if (posts.filter fun p => p.id == postId && p.hotelId == hotelId).isEmpty then
      (ApiRes.notFound postNotFoundMsg, posts)
    else if body.title.isNone then
      (ApiRes.serverError failedUpdatePostMsg, posts)
    else
      (ApiRes.ok postUpdatedMsg,
       posts.map fun p => if p.id == postId then applyPostBody p body else p)

/-- A row of the `HotelDetails JOIN users` pair that the browse query
selects from; `ownerProfileCompleted` is the joined `users.isProfileCompleted`. -/
structure HotelRow where
  id : Nat
  hotelName : String
  city : String
  state : String
  country : String
  pincode : String
  starCategory : Int
  ownerProfileCompleted : Bool
deriving DecidableEq

/-- Query parameters of `GET /browse/hotels`. `none` models an absent or
falsy parameter (for the text filters also the empty string); numeric
parameters carry their parsed value. -/
structure SearchFilters where
  city : Option String
  state : Option String
  country : Option String
  pincode : Option String
  minStars : Option Int
  maxStars : Option Int
  minPrice : Option Int
  maxPrice : Option Int
  guests : Option Int
  sortBy : String
  page : Int
  limit : Int
deriving DecidableEq

/-- Substring containment on character lists, for SQL `LIKE CONCAT(ANY, pat, ANY)`. -/
def charsContain : List Char → List Char → Bool
  | hay, pat =>
    match hay with
    | [] => pat.isEmpty
    | _ :: rest => pat.isPrefixOf hay || charsContain rest pat

/-- `column LIKE CONCAT(ANY, pat, ANY)` modelled as substring containment. -/
def likeContains (hay pat : String) : Bool :=
  charsContain hay.data pat.data

/-- Active room types of one hotel (`rt.HotelDetails_Id = hd.Id AND rt.IsActive`). -/
def activeRoomTypes (roomTypes : List RoomType) (hid : Nat) : List RoomType :=
  roomTypes.filter fun rt => rt.hotelId == hid && rt.isActive

/-- The correlated `COUNT(*)` subquery (`roomTypeCount`). -/
def roomTypeCount (roomTypes : List RoomType) (hid : Nat) : Nat :=
  (activeRoomTypes roomTypes hid).length

/-- The correlated `MIN(rt.BasePrice)` subquery; NULL on no active rows. -/
def minBasePrice (roomTypes : List RoomType) (hid : Nat) : Option Int :=
  match (activeRoomTypes roomTypes hid).map (fun rt => rt.basePrice) with
  | [] => none
  | p :: ps => some (ps.foldl min p)

/-- The correlated `MAX(rt.Capacity)` subquery; NULL on no active rows. -/
def maxCapacity (roomTypes : List RoomType) (hid : Nat) : Option Int :=
  match (activeRoomTypes roomTypes hid).map (fun rt => rt.capacity) with
  | [] => none
  | c :: cs => some (cs.foldl max c)

/-- The WHERE clause of the browse query: the fixed
`users.isProfileCompleted = TRUE` plus the optional location and star
filters. -/
def browseWhere (f : SearchFilters) (h : HotelRow) : Bool :=
  h.ownerProfileCompleted
  && (match f.city with | none => true | some c => likeContains h.city c)
  && (match f.state with | none => true | some s => likeContains h.state s)
  && (match f.country with | none => true | some c => likeContains h.country c)
  && (match f.pincode with | none => true | some p => likeContains h.pincode p)
  && (match f.minStars with | none => true | some s => decide (s ≤ h.starCategory))
  && (match f.maxStars with | none => true | some s => decide (h.starCategory ≤ s))

/-- The HAVING clause: `roomTypeCount > 0` always, plus the validated price
and guest-capacity predicates (a numeric comparison against a NULL aggregate
is not true). The price parts are appended only for finite values `≥ 0`, the
guests part only for a floored value `> 0`. -/
def browseHaving (f : SearchFilters) (roomTypes : List RoomType) (h : HotelRow) : Bool :=
  decide (0 < roomTypeCount roomTypes h.id)
  && (match f.minPrice with
      | none => true
      | some mp =>
        if 0 ≤ mp then
          match minBasePrice roomTypes h.id with
          | none => false
          | some m => decide (mp ≤ m)
        else true)
  && (match f.maxPrice with
      | none => true
      | some mp =>
        if 0 ≤ mp then
          match minBasePrice roomTypes h.id with
          | none => false
          | some m => decide (m ≤ mp)
        else true)
  && (match f.guests with
      | none => true
      | some g =>
        if 0 < g then
          match maxCapacity roomTypes h.id with
          | none => false
          | some c => decide (g ≤ c)
        else true)

/-- The ORDER BY comparators of the whitelisted sort keys. -/
def browseSortLe (key : String) (roomTypes : List RoomType) (a b : HotelRow) : Bool :=
  if key == "price-low" then
    decide ((minBasePrice roomTypes a.id).getD 0 ≤ (minBasePrice roomTypes b.id).getD 0)
  else if key == "price-high" then
    decide ((minBasePrice roomTypes b.id).getD 0 ≤ (minBasePrice roomTypes a.id).getD 0)
  else if key == "name" then
    decide (a.hotelName ≤ b.hotelName)
  else
    decide (b.starCategory < a.starCategory)
    || (a.starCategory == b.starCategory && decide (a.hotelName ≤ b.hotelName))

/-- `GET /browse/hotels`: filter, sort by the whitelisted key (unrecognized
keys fall back to rating), then page with
`pageNum = max(1, page)` and `limitNum = clamp(limit, 1, 50)`. -/
def searchHotels (f : SearchFilters) (hotels : List HotelRow)
    (roomTypes : List RoomType) : List HotelRow :=
  let pageNum := max 1 f.page
  let limitNum := max 1 (min 50 f.limit)
  let offset := (pageNum - 1) * limitNum
  let filtered := hotels.filter fun h => browseWhere f h && browseHaving f roomTypes h
  let sorted := filtered.mergeSort (browseSortLe f.sortBy roomTypes)
  (sorted.drop offset.toNat).take limitNum.toNat

/-- The hotels the pagination count query counts: its subquery repeats the
same JOIN/WHERE conditions and the same HAVING parts as the page query. -/
def countedHotels (f : SearchFilters) (hotels : List HotelRow)
    (roomTypes : List RoomType) : List HotelRow :=
  hotels.filter fun h => browseWhere f h && browseHaving f roomTypes h

/-- `countResult[0].total` of `GET /browse/hotels`. -/
def countTotal (f : SearchFilters) (hotels : List HotelRow)
    (roomTypes : List RoomType) : Nat :=
  (countedHotels f hotels roomTypes).length

/-- `GET /bookings` (Corporate list): own bookings, optionally filtered by
status, newest first, LIMIT 50. -/
def listBookingsCorporate (db : List Booking) (callerUserId : Nat)
    (statusF : Option BookingStatus) : List Booking :=
  ((db.filter fun b =>
      b.userId == callerUserId
      && (match statusF with | none => true | some s => b.status == s)).mergeSort
    (fun a b => decide (b.createdAt ≤ a.createdAt))).take 50

/-- Outcome of `GET /bookings/hotel`. -/
inductive HotelListRes
  | forbidden (e : String)
  | notFound (e : String)
  | ok (bookings : List Booking)
deriving DecidableEq

/-- `GET /bookings/hotel` (Hotel list): Hotel-only, requires a hotel
profile, then lists the bookings against that hotel, newest first, LIMIT 100. -/
def listBookingsHotel (hotels : List HotelProfile) (db : List Booking)
    (user : AuthUser) (statusF : Option BookingStatus) : HotelListRes :=
  if user.identityType ≠ some IdentityType.Hotel then
    HotelListRes.forbidden accessDeniedHotelMsg
  else
    match getHotelDetailsId hotels user.id with
    | none => HotelListRes.notFound hotelProfileNotFoundMsg
    | some hid =>
      HotelListRes.ok
        (((db.filter fun b =>
            b.hotelId == hid
            && (match statusF with | none => true | some s => b.status == s)).mergeSort
          (fun a b => decide (b.createdAt ≤ a.createdAt))).take 100)

/-- `GET /bookings/:id`: the single SELECT is keyed by booking id AND the
caller's user id; an empty result is reported as NotFound. -/
def getBookingById (db : List Booking) (callerUserId : Nat) (bid : Nat) : Option Booking :=
  (db.filter fun b => b.id == bid && b.userId == callerUserId).head?

/-! ## Claim C1 — booking price computation -/

/-- Concrete inputs for the pricing claims. -/
def corpUserC1 : AuthUser :=
  { id := 3, email := "corp@example.com", role := "user",
    identityType := some IdentityType.Corporate }

/-- A room type whose corporate price is present but zero (the driver
hands the route the truthy string "0.00"). -/
def rtZeroCorp : RoomType :=
  { id := 1, hotelId := 1, name := "Standard", capacity := 2,
    basePrice := 150, corporatePrice := some 0, isActive := true }

/-- A room type with basePrice 150 and corporatePrice 120, as in the spec's
worked example. -/
def rtCorp120 : RoomType :=
  { id := 1, hotelId := 1, name := "Standard", capacity := 2,
    basePrice := 150, corporatePrice := some 120, isActive := true }

/-- A creation request for 2025-12-20 to 2025-12-22 (epoch milliseconds,
two nights) with one room. -/
def bodyC1 : BookingRequestBody :=
  { hotelDetailsId := some 1, roomTypeId := some 1,
    checkInDate := some 1766188800000, checkOutDate := some 1766361600000,
    guestName := some "Guest", guestEmail := some "guest@example.com",
    guestPhone := none, guestCount := none, roomCount := some 1,
    specialRequests := none }

/-- C1: for a Corporate caller naming an active room type of the named
hotel (and a fresh booking number), the stored total equals
`(corporatePrice ?? basePrice) × nights × roomCount`, with
`nights = ceil((checkOut − checkIn) in days)`: the fallback to basePrice
fires only when CorporatePrice is NULL — a corporate price that is present
but zero arrives from the driver as the truthy string "0.00" and is used
as 0, not replaced by basePrice. -/
theorem booking_price_formula (roomTypesDb : List RoomType)
    (corps : List CorporateProfile) (existing : List String) (user : AuthUser)
    (nowMs rand nextId : Nat) (body : BookingRequestBody) (rt : RoomType)
    (hId rtId : Nat) (ci co : Int) (gn ge : String)
    (hident : user.identityType = some IdentityType.Corporate)
    (hh : body.hotelDetailsId = some hId) (hh0 : hId ≠ 0)
    (hr : body.roomTypeId = some rtId) (hr0 : rtId ≠ 0)
    (hci : body.checkInDate = some ci) (hco : body.checkOutDate = some co)
    (hgn : body.guestName = some gn) (hgn0 : gn ≠ "")
    (hge : body.guestEmail = some ge) (hge0 : ge ≠ "")
    (hfind : (roomTypesDb.filter fun x =>
        x.id == rtId && x.hotelId == hId && x.isActive).head? = some rt)
    (hnocol : generateBookingNumber nowMs rand ∉ existing) :
    createdTotalPrice (createBooking roomTypesDb corps existing user nowMs rand nextId body)
      = some (specNullishTotal rt.basePrice rt.corporatePrice
          (ceilDiv (co - ci) 86400000) (jsOrNat body.roomCount 1)) := by
  unfold createBooking
  simp only [hident, hh, hr, hci, hco, hgn, hge, natFalsy, strFalsy,
    Option.isNone_some, Option.getD_some, ne_eq, not_true_eq_false,
    if_false, Bool.or_eq_true, beq_iff_eq, hh0, hr0, hgn0, hge0]
  rw [if_neg (by simp [hh0, hr0, hgn0, hge0])]
  rw [hfind]
  simp only [calculateTotalPrice]
  rw [if_neg hnocol]
  rfl

/-- C1 witness: basePrice 150 with corporatePrice 120 over 2025-12-20 →
2025-12-22 and one room stores 240; with a corporate price present but
zero the stored total is 0, not 300 — the fallback does not fire on a
merely-zero corporate price. -/
theorem booking_price_formula_witness :
    createdTotalPrice
        (createBooking [rtCorp120] [] [] corpUserC1 1766188800000 42 1 bodyC1)
      = some 240
    ∧ createdTotalPrice
        (createBooking [rtZeroCorp] [] [] corpUserC1 1766188800000 42 1 bodyC1)
      = some 0 :=
  ⟨(booking_price_formula [rtCorp120] [] [] corpUserC1 1766188800000 42 1 bodyC1
      rtCorp120 1 1 1766188800000 1766361600000 "Guest" "guest@example.com"
      (by decide) (by decide) (by decide) (by decide) (by decide) (by decide)
      (by decide) (by decide) (by decide) (by decide) (by decide) (by decide)
      (by decide)).trans (by decide),
   (booking_price_formula [rtZeroCorp] [] [] corpUserC1 1766188800000 42 1 bodyC1
      rtZeroCorp 1 1 1766188800000 1766361600000 "Guest" "guest@example.com"
      (by decide) (by decide) (by decide) (by decide) (by decide) (by decide)
      (by decide) (by decide) (by decide) (by decide) (by decide) (by decide)
      (by decide)).trans (by decide)⟩

/-! ## Claim C9 — booking-number collision handling -/

/-- C9: when the generated booking number collides with a stored one
(`BK` + last six digits of the clock + the four-digit random suffix equals
an existing `BookingNumber`), the single INSERT fails on the UNIQUE
constraint and the handler's catch block surfaces a 500 to the caller — no
retry with a fresh number is attempted. -/
theorem booking_number_collision_surfaces_500 :
    generateBookingNumber 1766188800000 1234 = "BK8000001234"
    ∧ createBooking [rtCorp120] [] ["BK8000001234"] corpUserC1
        1766188800000 1234 1 bodyC1
      = CreateBookingRes.serverError failedCreateBookingMsg := by
  refine ⟨by decide, by decide⟩

/-! ## Claim C2 — transitions from a wrong source state -/

/-- C2: approve and reject on a booking of the caller's hotel whose status
is not `pending`, and cancel by the creating user on a booking whose status
is neither `pending` nor `confirmed`, all answer BadRequest and leave the
bookings table untouched. -/
theorem transition_wrong_state_bad_request
    (hotels : List HotelProfile) (db : List Booking) (user uc : AuthUser)
    (bid : Nat) (now : Int) (reason : Option String) (b : Booking) :
    ((user.identityType = some IdentityType.Hotel →
      (db.filter fun x =>
          x.id == bid && some x.hotelId == getHotelDetailsId hotels user.id).head? = some b →
      b.status ≠ BookingStatus.pending →
      approveBooking hotels db user bid now = (ApiRes.badRequest onlyPendingApproveMsg, db)
      ∧ rejectBooking hotels db user bid reason
          = (ApiRes.badRequest onlyPendingRejectMsg, db))
    ∧ ((db.filter fun x => x.id == bid && x.userId == uc.id).head? = some b →
      ¬(b.status = BookingStatus.pending ∨ b.status = BookingStatus.confirmed) →
      cancelBooking db uc bid = (ApiRes.badRequest cannotCancelMsg, db))) := by
  constructor
  · intro hident hfind hstat
    constructor
    · unfold approveBooking
      rw [if_neg (by simp [hident])]
      simp only [hfind]
      rw [if_pos hstat]
    · unfold rejectBooking
      rw [if_neg (by simp [hident])]
      simp only [hfind]
      rw [if_pos hstat]
  · intro hfind hstat
    unfold cancelBooking
    simp only [hfind]
    rw [if_pos hstat]

/-- A hotel profile row: hotel 5 owned by user 7. -/
def hotelsW2 : List HotelProfile := [{ id := 5, userId := 7 }]

/-- The Hotel-role caller owning hotel 5. -/
def hotelUserW2 : AuthUser :=
  { id := 7, email := "hotel@example.com", role := "user",
    identityType := some IdentityType.Hotel }

/-- The Corporate caller who created the witness booking. -/
def corpUserW2 : AuthUser :=
  { id := 3, email := "corp@example.com", role := "user",
    identityType := some IdentityType.Corporate }

/-- A completed booking of hotel 5 created by user 3. -/
def bookingW2 : Booking :=
  { id := 1, bookingNumber := "BK0000010001", userId := 3,
    corporateDetailsId := some 2, hotelId := 5, roomTypeId := 1,
    checkInDate := 0, checkOutDate := 86400000,
    guestName := "Guest", guestEmail := "guest@example.com",
    guestPhone := none, guestCount := 1, roomQuantity := 1,
    specialRequests := none, totalPrice := 150,
    status := BookingStatus.completed, approvedAt := none,
    rejectionReason := none, createdAt := 0 }

/-- C2 witness: the three transitions on a `completed` booking, evaluated on
a one-row table. -/
theorem transition_wrong_state_bad_request_witness :
    approveBooking hotelsW2 [bookingW2] hotelUserW2 1 0
      = (ApiRes.badRequest onlyPendingApproveMsg, [bookingW2])
    ∧ rejectBooking hotelsW2 [bookingW2] hotelUserW2 1 none
      = (ApiRes.badRequest onlyPendingRejectMsg, [bookingW2])
    ∧ cancelBooking [bookingW2] corpUserW2 1
      = (ApiRes.badRequest cannotCancelMsg, [bookingW2]) := by
  have h := transition_wrong_state_bad_request hotelsW2 [bookingW2] hotelUserW2
    corpUserW2 1 0 none bookingW2
  exact ⟨(h.1 (by decide) (by decide) (by decide)).1,
         (h.1 (by decide) (by decide) (by decide)).2,
         h.2 (by decide) (by decide)⟩

/-! ## Claim C4 — login failure indistinguishability -/

/-- C4: a login whose email matches no active account and a login whose
email matches but whose password fails the bcrypt check produce the same
response: status 401 with the same error body, so the caller cannot tell
the two failure causes apart. -/
theorem login_failures_indistinguishable (users : List UserRow)
    (bcryptCompare : String → String → Bool) (e1 p1 e2 p2 : String) (u : UserRow)
    (h1 : (users.filter fun x => x.email == e1 && x.isActive).head? = none)
    (h2 : (users.filter fun x => x.email == e2 && x.isActive).head? = some u)
    (h3 : bcryptCompare p2 u.password = false) :
    login users bcryptCompare e1 p1 = LoginRes.err 401 invalidCredentialsMsg
    ∧ login users bcryptCompare e2 p2 = LoginRes.err 401 invalidCredentialsMsg
    ∧ login users bcryptCompare e1 p1 = login users bcryptCompare e2 p2 := by
  unfold login
  simp [h1, h2, h3]

/-- The single active account of the login witness. -/
def userW4 : UserRow :=
  { id := 1, email := "alice@example.com", password := "hashed-secret",
    role := "user", corporateClientId := none, identityType := none,
    isProfileCompleted := false, isActive := true }

/-- C4 witness: unknown email versus wrong password against a one-row users
table (string equality standing in for the bcrypt check). -/
theorem login_failures_indistinguishable_witness :
    login [userW4] (fun p stored => p == stored) "nobody@example.com" "x"
      = LoginRes.err 401 invalidCredentialsMsg
    ∧ login [userW4] (fun p stored => p == stored) "alice@example.com" "wrong"
      = LoginRes.err 401 invalidCredentialsMsg
    ∧ login [userW4] (fun p stored => p == stored) "nobody@example.com" "x"
      = login [userW4] (fun p stored => p == stored) "alice@example.com" "wrong" :=
  login_failures_indistinguishable [userW4] (fun p stored => p == stored)
    "nobody@example.com" "x" "alice@example.com" "wrong" userW4
    (by decide) (by decide) (by decide)


/-- Two rows of a table with pairwise-distinct ids that share an id are the
same row. -/
theorem eq_of_mem_pairwise_id {db : List Booking}
    (hpw : db.Pairwise fun x y => x.id ≠ y.id)
    {a b : Booking} (ha : a ∈ db) (hb : b ∈ db) (h : a.id = b.id) : a = b := by
  by_contra hne
  have hsym : Symmetric fun x y : Booking => x.id ≠ y.id := by
    intro x y hxy hyx
    exact hxy hyx.symm
  exact hpw.forall hsym ha hb hne h

/-- A head of a filter is a member satisfying the predicate. -/
theorem head_filter_facts {p : Booking → Bool} {db : List Booking} {b0 : Booking}
    (h : (db.filter p).head? = some b0) : b0 ∈ db ∧ p b0 = true := by
  have hm := List.mem_of_mem_head? h
  exact ⟨List.mem_of_mem_filter hm, (List.mem_filter.mp hm).2⟩

/-- The status-update map of a transition route (keyed by id, with an
id-preserving row update) keeps any terminal row intact and keeps ids
pairwise distinct, provided the row that passed the status guard is not
terminal. -/
theorem terminal_update_map {db : List Booking} {b b0 : Booking} {bid : Nat}
    (g : Booking → Booking) (hg : ∀ x, (g x).id = x.id)
    (hpw : db.Pairwise fun x y => x.id ≠ y.id)
    (hb : b ∈ db) (hterm : isTerminalStatus b.status = true)
    (hb0 : b0 ∈ db) (hb0id : b0.id = bid)
    (hb0nt : isTerminalStatus b0.status = false) :
    b ∈ db.map (fun x => if x.id == bid then g x else x)
    ∧ (db.map (fun x => if x.id == bid then g x else x)).Pairwise
        (fun x y => x.id ≠ y.id) := by
  have hfid : ∀ x : Booking, (if x.id == bid then g x else x).id = x.id := by
    intro x
    by_cases hx : (x.id == bid) = true
    · simp [hx, hg]
    · simp [hx]
  have hbne : (b.id == bid) = false := by
    refine beq_eq_false_iff_ne.mpr ?_
    intro hid
    have hbb0 : b = b0 := eq_of_mem_pairwise_id hpw hb hb0 (by rw [hid, hb0id])
    rw [hbb0, hb0nt] at hterm
    exact Bool.false_ne_true hterm
  constructor
  · have hm := List.mem_map_of_mem (fun x => if x.id == bid then g x else x) hb
    simpa [hbne] using hm
  · rw [List.pairwise_map]
    refine hpw.imp ?_
    intro a c h hac
    refine h ?_
    rw [← hfid a, ← hfid c, hac]

/-- One approve/reject/cancel call keeps a terminal row intact and keeps
ids pairwise distinct. -/
theorem terminal_applyOp (db : List Booking) (op : BookingOp) (b : Booking)
    (hpw : db.Pairwise fun x y => x.id ≠ y.id)
    (hb : b ∈ db) (hterm : isTerminalStatus b.status = true) :
    b ∈ applyOp db op ∧ (applyOp db op).Pairwise (fun x y => x.id ≠ y.id) := by
  cases op with
  | approve hotels user bid now =>
    have hgoal : applyOp db (BookingOp.approve hotels user bid now)
        = (approveBooking hotels db user bid now).2 := rfl
    rw [hgoal]
    unfold approveBooking
    by_cases hid : user.identityType ≠ some IdentityType.Hotel
    · rw [if_pos hid]; exact ⟨hb, hpw⟩
    · rw [if_neg hid]
      cases hh : (List.filter
          (fun x => x.id == bid && some x.hotelId == getHotelDetailsId hotels user.id)
          db).head? with
      | none => simp only [hh]; exact ⟨hb, hpw⟩
      | some b0 =>
        simp only [hh]
        by_cases hst : b0.status ≠ BookingStatus.pending
        · rw [if_pos hst]; exact ⟨hb, hpw⟩
        · rw [if_neg hst]
          have hb0p : b0.status = BookingStatus.pending := not_not.mp hst
          obtain ⟨hb0mem, hp⟩ := head_filter_facts hh
          rw [Bool.and_eq_true] at hp
          have hb0id : b0.id = bid := beq_iff_eq.mp hp.1
          exact terminal_update_map
            (fun x => { x with status := BookingStatus.confirmed, approvedAt := some now })
            (fun x => rfl) hpw hb hterm hb0mem hb0id (by rw [hb0p]; rfl)
  | reject hotels user bid reason =>
    have hgoal : applyOp db (BookingOp.reject hotels user bid reason)
        = (rejectBooking hotels db user bid reason).2 := rfl
    rw [hgoal]
    unfold rejectBooking
    by_cases hid : user.identityType ≠ some IdentityType.Hotel
    · rw [if_pos hid]; exact ⟨hb, hpw⟩
    · rw [if_neg hid]
      cases hh : (List.filter
          (fun x => x.id == bid && some x.hotelId == getHotelDetailsId hotels user.id)
          db).head? with
      | none => simp only [hh]; exact ⟨hb, hpw⟩
      | some b0 =>
        simp only [hh]
        by_cases hst : b0.status ≠ BookingStatus.pending
        · rw [if_pos hst]; exact ⟨hb, hpw⟩
        · rw [if_neg hst]
          have hb0p : b0.status = BookingStatus.pending := not_not.mp hst
          obtain ⟨hb0mem, hp⟩ := head_filter_facts hh
          rw [Bool.and_eq_true] at hp
          have hb0id : b0.id = bid := beq_iff_eq.mp hp.1
          exact terminal_update_map
            (fun x =>
              { x with status := BookingStatus.rejected, rejectionReason := jsStrOrNull reason })
            (fun x => rfl) hpw hb hterm hb0mem hb0id (by rw [hb0p]; rfl)
  | cancel user bid =>
    have hgoal : applyOp db (BookingOp.cancel user bid)
        = (cancelBooking db user bid).2 := rfl
    rw [hgoal]
    unfold cancelBooking
    cases hh : (List.filter (fun x => x.id == bid && x.userId == user.id) db).head? with
    | none => simp only [hh]; exact ⟨hb, hpw⟩
    | some b0 =>
      simp only [hh]
      by_cases hst : ¬(b0.status = BookingStatus.pending
          ∨ b0.status = BookingStatus.confirmed)
      · rw [if_pos hst]; exact ⟨hb, hpw⟩
      · rw [if_neg hst]
        have hb0pc : b0.status = BookingStatus.pending
            ∨ b0.status = BookingStatus.confirmed := not_not.mp hst
        obtain ⟨hb0mem, hp⟩ := head_filter_facts hh
        rw [Bool.and_eq_true] at hp
        have hb0id : b0.id = bid := beq_iff_eq.mp hp.1
        refine terminal_update_map
          (fun x => { x with status := BookingStatus.cancelled })
          (fun x => rfl) hpw hb hterm hb0mem hb0id ?_
        rcases hb0pc with h | h <;> rw [h] <;> rfl

/-- A terminal row survives any sequence of workflow calls, the table
keeping pairwise-distinct ids. -/
theorem terminal_applyOps (ops : List BookingOp) : ∀ (db : List Booking) (b : Booking),
    db.Pairwise (fun x y => x.id ≠ y.id) → b ∈ db → isTerminalStatus b.status = true →
    b ∈ applyOps db ops ∧ (applyOps db ops).Pairwise (fun x y => x.id ≠ y.id) := by
  induction ops with
  | nil => intro db b hpw hb _; exact ⟨hb, hpw⟩
  | cons op ops ih =>
    intro db b hpw hb hterm
    have h1 := terminal_applyOp db op b hpw hb hterm
    exact ih (applyOp db op) b h1.2 h1.1 hterm

/-- C3: in any sequence of approve, reject, and cancel calls against a
bookings table with distinct ids, a booking whose status is `rejected`,
`cancelled`, or `completed` is still present unchanged afterwards, and
every row carrying its id still carries the same status: no workflow call
transitions out of those three states. -/
theorem terminal_status_never_changes (db : List Booking) (ops : List BookingOp)
    (b : Booking)
    (hpw : db.Pairwise (fun x y => x.id ≠ y.id))
    (hb : b ∈ db)
    (hterm : b.status = BookingStatus.rejected ∨ b.status = BookingStatus.cancelled
      ∨ b.status = BookingStatus.completed) :
    b ∈ applyOps db ops
    ∧ ∀ b' ∈ applyOps db ops, b'.id = b.id → b'.status = b.status := by
  have ht : isTerminalStatus b.status = true := by
    rcases hterm with h | h | h <;> rw [h] <;> rfl
  obtain ⟨hmem, hpw2⟩ := terminal_applyOps ops db b hpw hb ht
  refine ⟨hmem, ?_⟩
  intro b' hb' hid
  rw [eq_of_mem_pairwise_id hpw2 hb' hmem hid]

/-- The hotel table of the C3 witness: hotel 5 owned by user 7. -/
def hotelsW3 : List HotelProfile := [{ id := 5, userId := 7 }]

/-- The Hotel-role caller of the C3 witness. -/
def hotelUserW3 : AuthUser :=
  { id := 7, email := "hotel3@example.com", role := "user",
    identityType := some IdentityType.Hotel }

/-- The Corporate caller of the C3 witness. -/
def corpUserW3 : AuthUser :=
  { id := 3, email := "corp3@example.com", role := "user",
    identityType := some IdentityType.Corporate }

/-- A rejected booking of hotel 5 created by user 3. -/
def bookingW3 : Booking :=
  { id := 1, bookingNumber := "BK0000010002", userId := 3,
    corporateDetailsId := some 2, hotelId := 5, roomTypeId := 1,
    checkInDate := 0, checkOutDate := 86400000,
    guestName := "Guest", guestEmail := "guest@example.com",
    guestPhone := none, guestCount := 1, roomQuantity := 1,
    specialRequests := none, totalPrice := 150,
    status := BookingStatus.rejected, approvedAt := none,
    rejectionReason := none, createdAt := 0 }

/-- An approve, a cancel, and a reject aimed at the rejected booking. -/
def opsW3 : List BookingOp :=
  [BookingOp.approve hotelsW3 hotelUserW3 1 0,
   BookingOp.cancel corpUserW3 1,
   BookingOp.reject hotelsW3 hotelUserW3 1 none]

/-- C3 witness: the rejected booking survives the three calls unchanged. -/
theorem terminal_status_never_changes_witness :
    bookingW3 ∈ applyOps [bookingW3] opsW3
    ∧ ∀ b' ∈ applyOps [bookingW3] opsW3,
        b'.id = bookingW3.id → b'.status = bookingW3.status :=
  terminal_status_never_changes [bookingW3] opsW3 bookingW3
    (by simp) (by simp) (Or.inl rfl)

/-! ## Claim C5 — cross-hotel catalog mutations fail NotFound -/

/-- The hotel table of the C6 instances: hotel 5 owned by user 9. -/
def hotelsC6 : List HotelProfile := [{ id := 5, userId := 9 }]

/-- A post of hotel 5 with a stored price of 100. -/
def postC6 : HotelPost :=
  { id := 1, hotelId := 5, title := some "Old title", description := "desc",
    price := some 100, minPrice := none, maxPrice := none,
    availableDate := none, startDate := none, endDate := none }

/-- An update payload carrying only a title; every other field is unset. -/
def bodyC6 : PostBody :=
  { title := some "New title", description := none, price := none,
    availableDate := none, minPrice := none, maxPrice := none,
    startDate := none, endDate := none }

/-- C6, counterexample: updating a post with a payload that sets only the
title resets the stored price to null instead of leaving the stored 100 in
place — the UPDATE statement overwrites every column. -/
theorem post_partial_update_cex :
    (updatePost hotelsC6 [postC6] 9 1 bodyC6).2.map (fun q => q.price) = [none]
    ∧ postC6.price = some 100
    ∧ (none : Option Int) ≠ some 100 := by
  refine ⟨by decide, by decide, by decide⟩

/-- A payload with no title at all (the absent-title error-path input). -/
def bodyC6none : PostBody :=
  { title := none, description := none, price := none,
    availableDate := none, minPrice := none, maxPrice := none,
    startDate := none, endDate := none }

/-- C6, amended: for an in-scope update by the owning hotel, a payload
carrying a title succeeds and overwrites every column of the post row from
the payload — fields absent from the payload do not retain their stored
values (the description falls back to the empty string, the numeric and
date columns to null) — while a payload without a title makes the UPDATE's
raw title bind parameter undefined, which mysql2 `execute` rejects, so the
route answers 500 with the row unchanged. -/
theorem post_update_overwrites_all_fields
    (hotels : List HotelProfile) (posts : List HotelPost)
    (uid pid hid : Nat) (body : PostBody) (p : HotelPost)
    (hhid : getHotelDetailsId hotels uid = some hid)
    (hp : p ∈ posts) (hpid : p.id = pid) (hph : p.hotelId = hid) :
    (body.title ≠ none →
      updatePost hotels posts uid pid body
        = (ApiRes.ok postUpdatedMsg,
           posts.map fun q => if q.id == pid then applyPostBody q body else q))
    ∧ (body.title = none →
      updatePost hotels posts uid pid body
        = (ApiRes.serverError failedUpdatePostMsg, posts))
    ∧ (applyPostBody p body).title = body.title
    ∧ (applyPostBody p body).description = jsStrOrEmpty body.description
    ∧ (applyPostBody p body).price = jsNumOrNull body.price
    ∧ (applyPostBody p body).minPrice = jsNumOrNull body.minPrice
    ∧ (applyPostBody p body).maxPrice = jsNumOrNull body.maxPrice
    ∧ (applyPostBody p body).availableDate = body.availableDate
    ∧ (applyPostBody p body).startDate = body.startDate
    ∧ (applyPostBody p body).endDate = body.endDate := by
  have hmem : p ∈ posts.filter fun q => q.id == pid && q.hotelId == hid := by
    rw [List.mem_filter]
    refine ⟨hp, ?_⟩
    rw [Bool.and_eq_true]
    exact ⟨beq_iff_eq.mpr hpid, beq_iff_eq.mpr hph⟩
  have hne : ((posts.filter fun q => q.id == pid && q.hotelId == hid).isEmpty) ≠ true := by
    simp only [ne_eq, List.isEmpty_iff]
    exact List.ne_nil_of_mem hmem
  refine ⟨?_, ?_, rfl, rfl, rfl, rfl, rfl, rfl, rfl, rfl⟩
  · intro htitle
    unfold updatePost
    simp only [hhid]
    rw [if_neg hne]
    rw [if_neg (by simp [Option.isNone_iff_eq_none, htitle])]
  · intro htitle
    unfold updatePost
    simp only [hhid]
    rw [if_neg hne]
    rw [if_pos (by simp [Option.isNone_iff_eq_none, htitle])]

/-- C6 witness: on the one-post table, the title-carrying payload rebuilds
the whole row from the payload (the stored price does not survive), and
the title-less payload is answered with 500 and an unchanged table. -/
theorem post_update_overwrites_all_fields_witness :
    updatePost hotelsC6 [postC6] 9 1 bodyC6
      = (ApiRes.ok postUpdatedMsg,
         [postC6].map fun q => if q.id == 1 then applyPostBody q bodyC6 else q)
    ∧ updatePost hotelsC6 [postC6] 9 1 bodyC6none
      = (ApiRes.serverError failedUpdatePostMsg, [postC6])
    ∧ (applyPostBody postC6 bodyC6).price = jsNumOrNull bodyC6.price :=
  ⟨(post_update_overwrites_all_fields hotelsC6 [postC6] 9 1 5 bodyC6 postC6
      (by decide) (by simp) (by decide) (by decide)).1 (by decide),
   (post_update_overwrites_all_fields hotelsC6 [postC6] 9 1 5 bodyC6none postC6
      (by decide) (by simp) (by decide) (by decide)).2.1 (by decide),
   (post_update_overwrites_all_fields hotelsC6 [postC6] 9 1 5 bodyC6 postC6
      (by decide) (by simp) (by decide) (by decide)).2.2.2.2.1⟩

/-! ## Claim C7 — guest-capacity and zero-room-type exclusion in search -/

/-- Membership in a search page implies both filter clauses held. -/
theorem mem_search_filtered {f : SearchFilters} {hotels : List HotelRow}
    {roomTypes : List RoomType} {h : HotelRow}
    (hm : h ∈ searchHotels f hotels roomTypes) :
    browseWhere f h = true ∧ browseHaving f roomTypes h = true := by
  simp only [searchHotels] at hm
  have h1 := List.take_subset _ _ hm
  have h2 := List.drop_subset _ _ h1
  rw [List.mem_mergeSort, List.mem_filter] at h2
  have h3 := h2.2
  rw [Bool.and_eq_true] at h3
  exact h3

/-- A fold of `max` over integers all below a bound stays below it. -/
theorem foldl_max_lt (g : Int) : ∀ (cs : List Int) (c : Int),
    c < g → (∀ x ∈ cs, x < g) → cs.foldl max c < g := by
  intro cs
  induction cs with
  | nil => intro c hc _; simpa using hc
  | cons x xs ih =>
    intro c hc hall
    have hx : x < g := hall x (List.mem_cons_self x xs)
    exact ih (max c x) (max_lt hc hx) (fun y hy => hall y (List.mem_cons_of_mem x hy))

/-- C7: a hotel search with a positive guests filter `g` excludes every
hotel whose active room types all have capacity below `g`, and a hotel
with zero active room types is excluded from every search result. -/
theorem search_capacity_exclusions (f : SearchFilters) (hotels : List HotelRow)
    (roomTypes : List RoomType) (h : HotelRow) :
    ((∃ g, f.guests = some g ∧ 0 < g ∧
        ∀ rt ∈ roomTypes, rt.hotelId = h.id → rt.isActive = true → rt.capacity < g) →
      h ∉ searchHotels f hotels roomTypes)
    ∧ (activeRoomTypes roomTypes h.id = [] → h ∉ searchHotels f hotels roomTypes) := by
  constructor
  · rintro ⟨g, hg, hgpos, hcap⟩ hmem
    obtain ⟨_, hhav⟩ := mem_search_filtered hmem
    unfold browseHaving at hhav
    simp only [Bool.and_eq_true] at hhav
    have hguest := hhav.2
    simp only [hg] at hguest
    rw [if_pos hgpos] at hguest
    cases hmc : maxCapacity roomTypes h.id with
    | none => simp [hmc] at hguest
    | some c =>
      simp only [hmc] at hguest
      have hc : g ≤ c := of_decide_eq_true hguest
      unfold maxCapacity at hmc
      cases hl : (activeRoomTypes roomTypes h.id).map (fun rt => rt.capacity) with
      | nil => rw [hl] at hmc; exact Option.noConfusion hmc
      | cons c0 cs =>
        rw [hl] at hmc
        have hceq : cs.foldl max c0 = c := by
          injection hmc
        have hallmem : ∀ x ∈ c0 :: cs, x < g := by
          intro x hx
          rw [← hl] at hx
          obtain ⟨rt, hrtmem, hrteq⟩ := List.mem_map.mp hx
          unfold activeRoomTypes at hrtmem
          obtain ⟨hrtin, hrtp⟩ := List.mem_filter.mp hrtmem
          rw [Bool.and_eq_true] at hrtp
          rw [← hrteq]
          exact hcap rt hrtin (beq_iff_eq.mp hrtp.1) hrtp.2
        have hlt : cs.foldl max c0 < g :=
          foldl_max_lt g cs c0 (hallmem c0 (List.mem_cons_self _ _))
            (fun y hy => hallmem y (List.mem_cons_of_mem _ hy))
        rw [hceq] at hlt
        exact absurd hc (not_le.mpr hlt)
  · intro hzero hmem
    obtain ⟨_, hhav⟩ := mem_search_filtered hmem
    unfold browseHaving at hhav
    simp only [Bool.and_eq_true] at hhav
    have hcount := hhav.1.1.1
    unfold roomTypeCount at hcount
    rw [hzero] at hcount
    simp at hcount

/-- The hotel of the C7 witness: complete profile, but its one active room
type only sleeps one guest. -/
def hotelW7 : HotelRow :=
  { id := 1, hotelName := "Tiny Inn", city := "Pune", state := "MH",
    country := "IN", pincode := "411001", starCategory := 4,
    ownerProfileCompleted := true }

/-- The single-capacity room type of the C7 witness. -/
def roomTypeW7 : RoomType :=
  { id := 1, hotelId := 1, name := "Single", capacity := 1,
    basePrice := 90, corporatePrice := none, isActive := true }

/-- A search asking for two guests (and at least four stars). -/
def filtersW7 : SearchFilters :=
  { city := none, state := none, country := none, pincode := none,
    minStars := some 4, maxStars := none, minPrice := none, maxPrice := none,
    guests := some 2, sortBy := "rating", page := 1, limit := 12 }

/-- C7 witness: the one-capacity hotel is excluded from the two-guest
search even though it matches the star filter. -/
theorem search_capacity_exclusions_witness :
    hotelW7 ∉ searchHotels filtersW7 [hotelW7] [roomTypeW7] :=
  (search_capacity_exclusions filtersW7 [hotelW7] [roomTypeW7] hotelW7).1
    ⟨2, rfl, by decide, by decide⟩

/-! ## Claim C10 — incomplete owner profiles are invisible to search -/

/-- C10: a hotel whose owning account has `isProfileCompleted = FALSE` never
appears in a search page, is never among the hotels the count query counts,
and adding such a hotel to the table leaves the pagination total unchanged,
whatever the filters. -/
theorem incomplete_profile_hidden (f : SearchFilters) (hotels : List HotelRow)
    (roomTypes : List RoomType) (h : HotelRow)
    (hflag : h.ownerProfileCompleted = false) :
    h ∉ searchHotels f hotels roomTypes
    ∧ h ∉ countedHotels f hotels roomTypes
    ∧ countTotal f (h :: hotels) roomTypes = countTotal f hotels roomTypes := by
  have hwf : browseWhere f h = false := by
    unfold browseWhere
    rw [hflag]
    simp
  refine ⟨?_, ?_, ?_⟩
  · intro hmem
    have hw := (mem_search_filtered hmem).1
    rw [hwf] at hw
    exact Bool.false_ne_true hw
  · intro hmem
    unfold countedHotels at hmem
    rw [List.mem_filter, Bool.and_eq_true] at hmem
    have hw := hmem.2.1
    rw [hwf] at hw
    exact Bool.false_ne_true hw
  · unfold countTotal countedHotels
    rw [List.filter_cons]
    have hcond : (browseWhere f h && browseHaving f roomTypes h) = false := by
      rw [hwf]
      exact Bool.false_and _
    rw [hcond]
    simp

/-- The hidden hotel of the C10 witness: its owner never completed the
profile. -/
def hotelW10 : HotelRow :=
  { id := 2, hotelName := "Ghost Hotel", city := "Pune", state := "MH",
    country := "IN", pincode := "411001", starCategory := 5,
    ownerProfileCompleted := false }

/-- A room type of the hidden hotel (so only the profile flag excludes it). -/
def roomTypeW10 : RoomType :=
  { id := 2, hotelId := 2, name := "Suite", capacity := 4,
    basePrice := 500, corporatePrice := some 400, isActive := true }

/-- An unfiltered search for the C10 witness. -/
def filtersW10 : SearchFilters :=
  { city := none, state := none, country := none, pincode := none,
    minStars := none, maxStars := none, minPrice := none, maxPrice := none,
    guests := none, sortBy := "rating", page := 1, limit := 12 }

/-- C10 witness: the hotel with an incomplete owner profile is absent from
the page, absent from the counted set, and does not raise the total. -/
theorem incomplete_profile_hidden_witness :
    hotelW10 ∉ searchHotels filtersW10 [hotelW10] [roomTypeW10]
    ∧ hotelW10 ∉ countedHotels filtersW10 [hotelW10] [roomTypeW10]
    ∧ countTotal filtersW10 (hotelW10 :: []) [roomTypeW10]
        = countTotal filtersW10 [] [roomTypeW10] :=
  incomplete_profile_hidden filtersW10 [] [roomTypeW10] hotelW10 (by decide)

/-! ## Claim C8 — booking list and get scoping -/

/-- The hotel table of the C8 instances: hotel 5 owned by user 7. -/
def hotelsC8 : List HotelProfile := [{ id := 5, userId := 7 }]

/-- The Hotel-role caller of the C8 instances (user 7, owner of hotel 5). -/
def hotelUserC8 : AuthUser :=
  { id := 7, email := "hotel8@example.com", role := "user",
    identityType := some IdentityType.Hotel }

/-- A pending booking against hotel 5 created by user 3. -/
def bookingC8 : Booking :=
  { id := 1, bookingNumber := "BK0000010003", userId := 3,
    corporateDetailsId := some 2, hotelId := 5, roomTypeId := 1,
    checkInDate := 0, checkOutDate := 86400000,
    guestName := "Guest", guestEmail := "guest@example.com",
    guestPhone := none, guestCount := 1, roomQuantity := 1,
    specialRequests := none, totalPrice := 150,
    status := BookingStatus.pending, approvedAt := none,
    rejectionReason := none, createdAt := 0 }

/-- C8, counterexample: `GET /bookings/:id` filters by the requesting
user's id only, so the Hotel caller owning hotel 5 gets NotFound for a
booking that is against their own hotel — the claim's "get-by-id returns a
booking to a Hotel caller whenever the booking is against their hotel"
fails. -/
theorem hotel_get_booking_not_found_cex :
    getHotelDetailsId hotelsC8 7 = some 5
    ∧ bookingC8.hotelId = 5
    ∧ getBookingById [bookingC8] 7 1 = none := by
  refine ⟨by decide, by decide, by decide⟩

/-- C8, amended: the Corporate list returns only the caller's own bookings,
the hotel list returns only bookings against the caller's hotel, and
get-by-id only ever returns a booking created by the caller — so any
cross-scope get, including a Hotel caller reading a booking against their
own hotel, answers NotFound. -/
theorem booking_scope (hotels : List HotelProfile) (db : List Booking)
    (user : AuthUser) (uid bid : Nat) (statusF : Option BookingStatus) :
    (∀ b ∈ listBookingsCorporate db uid statusF, b.userId = uid)
    ∧ (∀ bs, listBookingsHotel hotels db user statusF = HotelListRes.ok bs →
        ∀ b ∈ bs, some b.hotelId = getHotelDetailsId hotels user.id)
    ∧ (∀ b, getBookingById db uid bid = some b → b.userId = uid ∧ b.id = bid) := by
  refine ⟨?_, ?_, ?_⟩
  · intro b hb
    unfold listBookingsCorporate at hb
    have h1 := List.take_subset _ _ hb
    rw [List.mem_mergeSort, List.mem_filter] at h1
    have h2 := h1.2
    rw [Bool.and_eq_true] at h2
    exact beq_iff_eq.mp h2.1
  · intro bs heq b hb
    unfold listBookingsHotel at heq
    by_cases hid : user.identityType ≠ some IdentityType.Hotel
    · rw [if_pos hid] at heq
      exact HotelListRes.noConfusion heq
    · rw [if_neg hid] at heq
      cases hh : getHotelDetailsId hotels user.id with
      | none =>
        simp only [hh] at heq
        exact HotelListRes.noConfusion heq
      | some hid2 =>
        simp only [hh] at heq
        have hbs := (HotelListRes.ok.injEq _ _).mp heq
        rw [← hbs] at hb
        have h1 := List.take_subset _ _ hb
        rw [List.mem_mergeSort, List.mem_filter] at h1
        have h2 := h1.2
        rw [Bool.and_eq_true] at h2
        rw [beq_iff_eq.mp h2.1]
  · intro b hfind
    unfold getBookingById at hfind
    obtain ⟨hbmem, hp⟩ := head_filter_facts hfind
    rw [Bool.and_eq_true] at hp
    exact ⟨beq_iff_eq.mp hp.2, beq_iff_eq.mp hp.1⟩

/-- C8 witness: the creating user (3) does retrieve the booking, and its
row carries their id. -/
theorem booking_scope_witness : bookingC8.userId = 3 ∧ bookingC8.id = 1 :=
  (booking_scope hotelsC8 [bookingC8] hotelUserC8 3 1 none).2.2 bookingC8 (by decide)
